import Mathlib

/-!
# JNI bridge `android_os_SELinux.cpp`

A shallow embedding of the native methods registered for `android/os/SELinux`
(`core/jni/android_os_SELinux.cpp`), followed by theorems about them.

Modelling conventions.

* A `jstring` / `jobject` argument is an `Option`: `none` is the Java `null`.
* libselinux is a parameter (`Native σ`): every primitive the file calls is a
  transition on an arbitrary stub state `σ` returning the C return code (an
  `Int`) and, for the label queries, the value left in the `security_context_t`
  out-parameter (`none` when the primitive left it `NULL`).
* The host runtime is a parameter (`Host`): the result of
  `jniGetFDFromFileDescriptor` together with the exception it may leave
  pending (the source tests it with `ExceptionOccurred`), and whether
  `NewStringUTF` can build a managed string (the source returns its result,
  `NULL` included, to the caller).  `GetStringUTFChars` yields the characters
  of the managed string: the source hands its result to libselinux unchecked,
  so a failed acquisition has no defined behaviour here.
* A native method is entered with no exception pending, as the JNI calling
  convention has it.
* Return codes, descriptors and process ids are `Int`; the source only compares
  return codes with `-1`, `0` and `1`, and the cast from `jint` to `pid_t`
  keeps the value.
* Every native method returns a `Result`: the returned value, the events it
  emitted in program order, the exception pending in the `JNIEnv` on return
  and the stub state on return.
* `LOGE` emits an event.  `LOGV` emits nothing: the verbose level is compiled
  out (the `LOGV` call in `setFSCreateCon` only compiles when the macro
  discards its arguments).
* `HAVE_SELINUX` is the preprocessor switch, passed as a `Bool`.
-/

namespace android

/-- A `security_context_t` returned by libselinux: a heap block holding a label. -/
structure Con where
  addr : Nat
  label : String
  deriving DecidableEq, Repr

/-- A `java.io.FileDescriptor` object, identified by its reference. -/
structure FileDescriptor where
  ref : Nat
  deriving DecidableEq, Repr

/-- An exception pending in the `JNIEnv`. -/
inductive Fault where
  | NullPointerException (msg : String)
  | hostFault (name : String)
  deriving DecidableEq, Repr

/-- A call of a libselinux primitive, with the arguments it received. -/
inductive NativeCall where
  | is_selinux_enabled
  | security_getenforce
  | getpeercon (fd : Int)
  | setfscreatecon (con : Option String)
  | setfilecon (path : String) (con : String)
  | getfilecon (path : String)
  | getcon
  | getpidcon (pid : Int)
  | selinux_check_access (scon tcon tclass perm : String)
  | freecon (con : Con)
  deriving DecidableEq, Repr

/-- An argument of a `printf`-style log call. -/
inductive LogArg where
  | str (s : String)
  | num (n : Int)
  deriving DecidableEq, Repr

/-- What a native method does that an observer outside it can count. -/
inductive Event where
  | call (c : NativeCall)
  | obtained (c : Con)
  | loge (fmt : String) (args : List LogArg)
  | throwNew (cls : String) (msg : String)
  | getStringUTFChars (s : String)
  | releaseStringUTFChars (s : String)
  deriving DecidableEq, Repr

/-- The libselinux primitives, as transitions of a stub state `σ`. -/
structure Native (σ : Type) where
  is_selinux_enabled : σ → Int × σ
  security_getenforce : σ → Int × σ
  getpeercon : Int → σ → (Int × Option Con) × σ
  setfscreatecon : Option String → σ → Int × σ
  setfilecon : String → String → σ → Int × σ
  getfilecon : String → σ → (Int × Option Con) × σ
  getcon : σ → (Int × Option Con) × σ
  getpidcon : Int → σ → (Int × Option Con) × σ
  selinux_check_access : String → String → String → String → σ → Int × σ
  freecon : Con → σ → σ
  strerror_errno : σ → String

/-- The host runtime services the file uses. -/
structure Host where
  /-- The descriptor read from the object and the exception left pending, if any. -/
  jniGetFDFromFileDescriptor : FileDescriptor → Int × Option Fault
  /-- The exception raised when `NewStringUTF` cannot build the string, if any. -/
  NewStringUTF_fault : String → Option Fault

/-- The outcome of one native method. -/
structure Result (α σ : Type) where
  value : α
  events : List Event
  pending : Option Fault
  state : σ

/-- Embedding of `env->NewStringUTF(context)`: `NULL` for a `NULL` buffer, `NULL` with
the host's exception pending when the string cannot be built. -/
def NewStringUTF (J : Host) (context : Option Con) : Option String × Option Fault :=
  match context with
  | none => (none, none)
  | some c =>
    match J.NewStringUTF_fault c.label with
    | none => (some c.label, none)
    | some f => (none, some f)

/-- The event recording that a query stored a block through its out-parameter. -/
def stored (context : Option Con) : List Event :=
  match context with
  | none => []
  | some c => [Event.obtained c]

/-- The statement `if(context != NULL) freecon(context);` found at each `bail:` label. -/
def bail_freecon {σ : Type} (N : Native σ) (context : Option Con) (s : σ) : List Event × σ :=
  match context with
  | none => ([], s)
  | some c => ([Event.call (NativeCall.freecon c)], N.freecon c s)

/-- Embedding of `throw_NullPointerException`: `FindClass` then `ThrowNew`. -/
def throw_NullPointerException (msg : String) : List Event × Option Fault :=
  ([Event.throwNew "java/lang/NullPointerException" msg], some (Fault.NullPointerException msg))

/-- Embedding of `isSELinuxEnabled`. -/
def isSELinuxEnabled {σ : Type} (HAVE_SELINUX : Bool) (N : Native σ) (s : σ) : Result Bool σ :=
  if HAVE_SELINUX then
    match N.is_selinux_enabled s with
    | (seLinuxEnabled, s1) =>
      { value := if seLinuxEnabled = 1 then true else false
        events := [Event.call NativeCall.is_selinux_enabled] ++
          (if seLinuxEnabled = -1 then
            [Event.loge "Error retrieving SELinux enabled status (%s)"
              [LogArg.str (N.strerror_errno s1)]]
           else [])
        pending := none
        state := s1 }
  else
    { value := false, events := [], pending := none, state := s }

/-- Embedding of `isSELinuxEnforced`. -/
def isSELinuxEnforced {σ : Type} (HAVE_SELINUX : Bool) (N : Native σ) (s : σ) : Result Bool σ :=
  if HAVE_SELINUX then
    match N.security_getenforce s with
    | (seLinuxEnforce, s1) =>
      { value := if seLinuxEnforce = 1 then true else false
        events := [Event.call NativeCall.security_getenforce] ++
          (if seLinuxEnforce = -1 then
            [Event.loge "Error retrieving SELinux enforce mode (%s)"
              [LogArg.str (N.strerror_errno s1)]]
           else [])
        pending := none
        state := s1 }
  else
    { value := false, events := [], pending := none, state := s }

/-- Embedding of `getPeerCon`. -/
def getPeerCon {σ : Type} (HAVE_SELINUX : Bool) (N : Native σ) (J : Host)
    (fileDescriptor : Option FileDescriptor) (s : σ) : Result (Option String) σ :=
  if HAVE_SELINUX then
    match fileDescriptor with
    | none =>
      let t := throw_NullPointerException "Trying to check security context of a null peer socket."
      { value := none, events := t.1, pending := t.2, state := s }
    | some fdObject =>
      match J.jniGetFDFromFileDescriptor fdObject with
      | (_, some fault) =>
        -- ExceptionOccurred() != NULL: LOGE, goto bail with context still NULL
        let b := bail_freecon N none s
        { value := none
          events := [Event.loge "There was an issue with retrieving the file descriptor" []] ++ b.1
          pending := some fault
          state := b.2 }
      | (fd, none) =>
        match N.getpeercon fd s with
        | ((peercon_return, context), s1) =>
          if peercon_return = -1 then
            let b := bail_freecon N context s1
            { value := none
              events := [Event.call (NativeCall.getpeercon fd)] ++ stored context ++
                [Event.loge "getPeerCon: Error retrieving context of peer connection (%s)"
                  [LogArg.str (N.strerror_errno s1)]] ++ b.1
              pending := none
              state := b.2 }
          else
            let securityString := NewStringUTF J context
            let b := bail_freecon N context s1
            { value := securityString.1
              events := [Event.call (NativeCall.getpeercon fd)] ++ stored context ++ b.1
              pending := securityString.2
              state := b.2 }
  else
    { value := none, events := [], pending := none, state := s }

/-- Embedding of `setFSCreateCon`. -/
def setFSCreateCon {σ : Type} (HAVE_SELINUX : Bool) (N : Native σ) (context : Option String)
    (s : σ) : Result Bool σ :=
  if HAVE_SELINUX then
    -- securityContext is NULL, or the buffer of GetStringUTFChars(context)
    let constant_securityContext : Option String := context
    let acquire : List Event :=
      match context with
      | none => []
      | some c => [Event.getStringUTFChars c]
    let securityContext : Option String := constant_securityContext
    match N.setfscreatecon securityContext s with
    | (ret, s1) =>
      let log : List Event :=
        if ret = -1 then
          -- tmp is "default" when context is NULL, the buffer securityContext otherwise
          let tmp : String :=
            match context with
            | none => "default"
            | some c => c
          [Event.loge "setFSCreateCon: error with setting security context -> '%s' (%s)"
            [LogArg.str tmp, LogArg.str (N.strerror_errno s1)]]
        else []
      let release : List Event :=
        match constant_securityContext with
        | none => []
        | some c => [Event.releaseStringUTFChars c]
      { value := if ret = 0 then true else false
        events := acquire ++ [Event.call (NativeCall.setfscreatecon securityContext)] ++ log ++
          release
        pending := none
        state := s1 }
  else
    { value := false, events := [], pending := none, state := s }

/-- Embedding of `setFileCon`. -/
def setFileCon {σ : Type} (HAVE_SELINUX : Bool) (N : Native σ) (path con : Option String)
    (s : σ) : Result Bool σ :=
  if HAVE_SELINUX then
    match path with
    | none =>
      let t := throw_NullPointerException
        "Trying to change the security context of a NULL file object."
      { value := false, events := t.1, pending := t.2, state := s }
    | some pathChars =>
      match con with
      | none =>
        let t := throw_NullPointerException
          "Trying to set the security context of a file object with NULL."
        { value := false, events := t.1, pending := t.2, state := s }
      | some conChars =>
        let objectPath := pathChars
        let constant_con := conChars
        let newCon := constant_con
        match N.setfilecon objectPath newCon s with
        | (ret, s1) =>
          { value := if ret = 0 then true else false
            events := [Event.getStringUTFChars pathChars, Event.getStringUTFChars conChars,
                Event.call (NativeCall.setfilecon objectPath newCon)] ++
              (if ret = -1 then
                [Event.loge "setFileCon: Error setting security context '%s' for '%s' (%s)"
                  [LogArg.str newCon, LogArg.str objectPath, LogArg.str (N.strerror_errno s1)]]
               else []) ++
              [Event.releaseStringUTFChars pathChars, Event.releaseStringUTFChars conChars]
            pending := none
            state := s1 }
  else
    { value := false, events := [], pending := none, state := s }

/-- Embedding of `getFileCon`. -/
def getFileCon {σ : Type} (HAVE_SELINUX : Bool) (N : Native σ) (J : Host) (path : Option String)
    (s : σ) : Result (Option String) σ :=
  if HAVE_SELINUX then
    match path with
    | none =>
      let t := throw_NullPointerException "Trying to check security context of a null path."
      { value := none, events := t.1, pending := t.2, state := s }
    | some pathChars =>
      let objectPath := pathChars
      match N.getfilecon objectPath s with
      | ((ret, context), s1) =>
        if ret = -1 then
          let b := bail_freecon N context s1
          { value := none
            events := [Event.getStringUTFChars pathChars,
                Event.call (NativeCall.getfilecon objectPath)] ++ stored context ++
              [Event.loge "getFileCon: Error retrieving context of file '%s' (%s)"
                [LogArg.str objectPath, LogArg.str (N.strerror_errno s1)]] ++ b.1 ++
              [Event.releaseStringUTFChars pathChars]
            pending := none
            state := b.2 }
        else
          let securityString := NewStringUTF J context
          let b := bail_freecon N context s1
          { value := securityString.1
            events := [Event.getStringUTFChars pathChars,
                Event.call (NativeCall.getfilecon objectPath)] ++ stored context ++ b.1 ++
              [Event.releaseStringUTFChars pathChars]
            pending := securityString.2
            state := b.2 }
  else
    { value := none, events := [], pending := none, state := s }

/-- Embedding of `getCon`. -/
def getCon {σ : Type} (HAVE_SELINUX : Bool) (N : Native σ) (J : Host) (s : σ) :
    Result (Option String) σ :=
  if HAVE_SELINUX then
    match N.getcon s with
    | ((ret, context), s1) =>
      if ret = -1 then
        let b := bail_freecon N context s1
        { value := none
          events := [Event.call NativeCall.getcon] ++ stored context ++
            [Event.loge "getCon: Error retrieving own context: (%s)"
              [LogArg.str (N.strerror_errno s1)]] ++ b.1
          pending := none
          state := b.2 }
      else
        let securityString := NewStringUTF J context
        let b := bail_freecon N context s1
        { value := securityString.1
          events := [Event.call NativeCall.getcon] ++ stored context ++ b.1
          pending := securityString.2
          state := b.2 }
  else
    { value := none, events := [], pending := none, state := s }

/-- Embedding of `getPidCon`. -/
def getPidCon {σ : Type} (HAVE_SELINUX : Bool) (N : Native σ) (J : Host) (pid : Int) (s : σ) :
    Result (Option String) σ :=
  if HAVE_SELINUX then
    let checkPid := pid
    match N.getpidcon checkPid s with
    | ((ret, context), s1) =>
      if ret = -1 then
        let b := bail_freecon N context s1
        { value := none
          events := [Event.call (NativeCall.getpidcon checkPid)] ++ stored context ++
            [Event.loge "getPidCon: Error retrieving context of pid '%d' (%s)"
              [LogArg.num checkPid, LogArg.str (N.strerror_errno s1)]] ++ b.1
          pending := none
          state := b.2 }
      else
        let securityString := NewStringUTF J context
        let b := bail_freecon N context s1
        { value := securityString.1
          events := [Event.call (NativeCall.getpidcon checkPid)] ++ stored context ++ b.1
          pending := securityString.2
          state := b.2 }
  else
    { value := none, events := [], pending := none, state := s }

/-- Embedding of `checkSELinuxAccess`.  The source passes its four arguments to
`GetStringUTFChars` without a null check; with `HAVE_SELINUX` a `null` argument has no
defined behaviour, which is the result `none`. -/
def checkSELinuxAccess {σ : Type} (HAVE_SELINUX : Bool) (N : Native σ)
    (scon tcon tclass perm : Option String) (s : σ) : Option (Result Bool σ) :=
  if HAVE_SELINUX then
    match scon, tcon, tclass, perm with
    | some myscon, some mytcon, some mytclass, some myperm =>
      match N.selinux_check_access myscon mytcon mytclass myperm s with
      | (ret, s1) =>
        some
          { value := if ret = 0 then true else false
            events := [Event.getStringUTFChars myscon, Event.getStringUTFChars mytcon,
              Event.getStringUTFChars mytclass, Event.getStringUTFChars myperm,
              Event.call (NativeCall.selinux_check_access myscon mytcon mytclass myperm)]
            pending := none
            state := s1 }
    | _, _, _, _ => none
  else
    some { value := true, events := [], pending := none, state := s }

/-! ## Observations on an event trace -/

/-- The libselinux calls of a trace, in order. -/
def nativeCalls : List Event → List NativeCall
  | [] => []
  | Event.call c :: es => c :: nativeCalls es
  | _ :: es => nativeCalls es

/-- The blocks libselinux allocated and handed over, in order. -/
def allocated : List Event → List Con
  | [] => []
  | Event.obtained c :: es => c :: allocated es
  | _ :: es => allocated es

/-- The exceptions thrown with `ThrowNew`, as class and message. -/
def thrown : List Event → List (String × String)
  | [] => []
  | Event.throwNew cls msg :: es => (cls, msg) :: thrown es
  | _ :: es => thrown es

/-- The error-level log records. -/
def errorLogs : List Event → List (String × List LogArg)
  | [] => []
  | Event.loge fmt args :: es => (fmt, args) :: errorLogs es
  | _ :: es => errorLogs es

/-- The strings whose UTF buffer was acquired, in order. -/
def acquired : List Event → List String
  | [] => []
  | Event.getStringUTFChars x :: es => x :: acquired es
  | _ :: es => acquired es

/-- The strings whose UTF buffer was released, in order. -/
def released : List Event → List String
  | [] => []
  | Event.releaseStringUTFChars x :: es => x :: released es
  | _ :: es => released es

/-! ## Stubs used to exercise the theorems -/

/-- A libselinux stub without state: every primitive returns `code`, every query leaves
`con` in its out-parameter. -/
def constNative (code : Int) (con : Option Con) : Native Unit where
  is_selinux_enabled := fun s => (code, s)
  security_getenforce := fun s => (code, s)
  getpeercon := fun _ s => ((code, con), s)
  setfscreatecon := fun _ s => (code, s)
  setfilecon := fun _ _ s => (code, s)
  getfilecon := fun _ s => ((code, con), s)
  getcon := fun s => ((code, con), s)
  getpidcon := fun _ s => ((code, con), s)
  selinux_check_access := fun _ _ _ _ s => (code, s)
  freecon := fun _ s => s
  strerror_errno := fun _ => "Permission denied"

/-- A host that resolves every descriptor and builds every string. -/
def nominalHost : Host where
  jniGetFDFromFileDescriptor := fun fdObject => (fdObject.ref, none)
  NewStringUTF_fault := fun _ => none

/-- A host that resolves every descriptor but cannot build any string. -/
def exhaustedHost : Host where
  jniGetFDFromFileDescriptor := fun fdObject => (fdObject.ref, none)
  NewStringUTF_fault := fun _ => some (Fault.hostFault "java/lang/OutOfMemoryError")

/-- A host that cannot resolve any descriptor. -/
def unresolvingHost : Host where
  jniGetFDFromFileDescriptor := fun _ => (-1, some (Fault.hostFault "java/lang/NoSuchFieldError"))
  NewStringUTF_fault := fun _ => none

/-- A stub filesystem-label store: `setfilecon` records the label at the path and returns 0,
`getfilecon` returns the recorded label and its length with the terminator, or -1 when the
path carries no label.  Access is granted when subject and target labels are equal. -/
def labelStore : Native (String → Option String) where
  is_selinux_enabled := fun st => (1, st)
  security_getenforce := fun st => (1, st)
  getpeercon := fun _ st => ((-1, none), st)
  setfscreatecon := fun _ st => (0, st)
  setfilecon := fun path con st => (0, fun q => if q = path then some con else st q)
  getfilecon := fun path st =>
    match st path with
    | some l => (((l.length : Int) + 1, some { addr := 4096, label := l }), st)
    | none => ((-1, none), st)
  getcon := fun st => ((0, some { addr := 8192, label := "u:r:system_app:s0" }), st)
  getpidcon := fun _ st => ((-1, none), st)
  selinux_check_access := fun scon tcon _ _ st => (if scon = tcon then 0 else -1, st)
  freecon := fun _ st => st
  strerror_errno := fun _ => "No data available"

/-- A libselinux stub whose `getcon` succeeds with the label `u:r:system_app:s0` and
whose access check always answers `verdict`. -/
def accessStub (verdict : Int) : Native Unit where
  is_selinux_enabled := fun s => (1, s)
  security_getenforce := fun s => (1, s)
  getpeercon := fun _ s => ((-1, none), s)
  setfscreatecon := fun _ s => (0, s)
  setfilecon := fun _ _ s => (0, s)
  getfilecon := fun _ s => ((-1, none), s)
  getcon := fun s => ((0, some { addr := 8192, label := "u:r:system_app:s0" }), s)
  getpidcon := fun _ s => ((-1, none), s)
  selinux_check_access := fun _ _ _ _ s => (verdict, s)
  freecon := fun _ s => s
  strerror_errno := fun _ => "Permission denied"

/-- How the result `r` of a label query method relates to what its libselinux query `out`
did (return code, out-parameter, next state), `fmt` and `args` being the error record of the
method: a query that did not return -1 and stored a block gives the label of the block when
the host builds the string, and null with the host's exception pending when it does not; a
query that returned -1 gives null, throws nothing and writes the error record once. -/
def QueryContract {σ : Type} (N : Native σ) (J : Host) (out : (Int × Option Con) × σ)
    (r : Result (Option String) σ) (fmt : String) (args : List LogArg) : Prop :=
  (∀ c : Con, out.1.2 = some c → out.1.1 ≠ -1 → J.NewStringUTF_fault c.label = none →
      r.value = some c.label ∧ r.pending = none ∧ thrown r.events = [])
  ∧ (∀ (c : Con) (f : Fault), out.1.2 = some c → out.1.1 ≠ -1 →
      J.NewStringUTF_fault c.label = some f →
      r.value = none ∧ r.pending = some f ∧ thrown r.events = [])
  ∧ (out.1.1 = -1 →
      r.value = none ∧ r.pending = none ∧ thrown r.events = []
      ∧ errorLogs r.events = [(fmt, args ++ [LogArg.str (N.strerror_errno out.2)])])

/-- The name of the exception class thrown for a null argument. -/
def npeClass : String := "java/lang/NullPointerException"

/-! ## Null arguments (C1) -/

/-- C1: in the build with SELinux and for every stub state, `getPeerCon` with a null
descriptor, `getFileCon` with a null path, `setFileCon` with a null path (whatever the
context, null included) and `setFileCon` with a null context each throw exactly one
`NullPointerException`, return the failure value, and call no libselinux primitive;
with both arguments of `setFileCon` null the exception is the one for the path. -/
theorem null_argument_fails_fast {σ : Type} (N : Native σ) (J : Host) (s : σ) :
    ((getPeerCon true N J none s).value = none
      ∧ thrown (getPeerCon true N J none s).events
          = [(npeClass, "Trying to check security context of a null peer socket.")]
      ∧ (getPeerCon true N J none s).pending
          = some (Fault.NullPointerException
              "Trying to check security context of a null peer socket.")
      ∧ nativeCalls (getPeerCon true N J none s).events = [])
    ∧ ((getFileCon true N J none s).value = none
      ∧ thrown (getFileCon true N J none s).events
          = [(npeClass, "Trying to check security context of a null path.")]
      ∧ (getFileCon true N J none s).pending
          = some (Fault.NullPointerException "Trying to check security context of a null path.")
      ∧ nativeCalls (getFileCon true N J none s).events = [])
    ∧ (∀ con : Option String,
        (setFileCon true N none con s).value = false
        ∧ thrown (setFileCon true N none con s).events
            = [(npeClass, "Trying to change the security context of a NULL file object.")]
        ∧ (setFileCon true N none con s).pending
            = some (Fault.NullPointerException
                "Trying to change the security context of a NULL file object.")
        ∧ nativeCalls (setFileCon true N none con s).events = [])
    ∧ (∀ path : String,
        (setFileCon true N (some path) none s).value = false
        ∧ thrown (setFileCon true N (some path) none s).events
            = [(npeClass, "Trying to set the security context of a file object with NULL.")]
        ∧ (setFileCon true N (some path) none s).pending
            = some (Fault.NullPointerException
                "Trying to set the security context of a file object with NULL.")
        ∧ nativeCalls (setFileCon true N (some path) none s).events = []) := by
  refine ⟨?_, ?_, ?_, ?_⟩
  · simp [getPeerCon, throw_NullPointerException, thrown, nativeCalls, npeClass]
  · simp [getFileCon, throw_NullPointerException, thrown, nativeCalls, npeClass]
  · intro con
    simp [setFileCon, throw_NullPointerException, thrown, nativeCalls, npeClass]
  · intro path
    simp [setFileCon, throw_NullPointerException, thrown, nativeCalls, npeClass]

/-! ## Build without SELinux (C9) -/

/-- C9: without `HAVE_SELINUX` every native method is a constant for every input, null
arguments included: it emits no event (so calls no primitive and throws nothing), leaves no
exception pending and leaves the stub state alone; `checkSELinuxAccess` returns true,
`isSELinuxEnabled`, `isSELinuxEnforced`, `setFSCreateCon` and `setFileCon` return false,
`getCon`, `getPidCon`, `getFileCon` and `getPeerCon` return null. -/
theorem without_selinux_constant {σ : Type} (N : Native σ) (J : Host) (s : σ)
    (scon tcon tclass perm context path con : Option String)
    (fileDescriptor : Option FileDescriptor) (pid : Int) :
    checkSELinuxAccess false N scon tcon tclass perm s
        = some { value := true, events := [], pending := none, state := s }
    ∧ isSELinuxEnabled false N s = { value := false, events := [], pending := none, state := s }
    ∧ isSELinuxEnforced false N s = { value := false, events := [], pending := none, state := s }
    ∧ setFSCreateCon false N context s
        = { value := false, events := [], pending := none, state := s }
    ∧ setFileCon false N path con s
        = { value := false, events := [], pending := none, state := s }
    ∧ getCon false N J s = { value := none, events := [], pending := none, state := s }
    ∧ getPidCon false N J pid s = { value := none, events := [], pending := none, state := s }
    ∧ getFileCon false N J path s = { value := none, events := [], pending := none, state := s }
    ∧ getPeerCon false N J fileDescriptor s
        = { value := none, events := [], pending := none, state := s } := by
  simp [checkSELinuxAccess, isSELinuxEnabled, isSELinuxEnforced, setFSCreateCon, setFileCon,
    getCon, getPidCon, getFileCon, getPeerCon]

/-! ## Status probes (C4) -/

/-- C4: in the build with SELinux, for every return code of the probe,
`isSELinuxEnabled` is true exactly when `is_selinux_enabled()` returned 1 and
`isSELinuxEnforced` is true exactly when `security_getenforce()` returned 1; when the
probe returned -1 the method writes one error-level log record and returns false; neither
method ever throws or leaves an exception pending. -/
theorem status_probes {σ : Type} (N : Native σ) (s : σ) :
    (((isSELinuxEnabled true N s).value = true ↔ (N.is_selinux_enabled s).1 = 1)
      ∧ ((N.is_selinux_enabled s).1 = -1 →
          (isSELinuxEnabled true N s).value = false
          ∧ errorLogs (isSELinuxEnabled true N s).events
              = [("Error retrieving SELinux enabled status (%s)",
                  [LogArg.str (N.strerror_errno (N.is_selinux_enabled s).2)])])
      ∧ thrown (isSELinuxEnabled true N s).events = []
      ∧ (isSELinuxEnabled true N s).pending = none)
    ∧ (((isSELinuxEnforced true N s).value = true ↔ (N.security_getenforce s).1 = 1)
      ∧ ((N.security_getenforce s).1 = -1 →
          (isSELinuxEnforced true N s).value = false
          ∧ errorLogs (isSELinuxEnforced true N s).events
              = [("Error retrieving SELinux enforce mode (%s)",
                  [LogArg.str (N.strerror_errno (N.security_getenforce s).2)])])
      ∧ thrown (isSELinuxEnforced true N s).events = []
      ∧ (isSELinuxEnforced true N s).pending = none) := by
  constructor
  · rcases h : N.is_selinux_enabled s with ⟨code, s1⟩
    by_cases h1 : code = -1
    · subst h1
      simp [isSELinuxEnabled, h, thrown, errorLogs]
    · simp [isSELinuxEnabled, h, h1, thrown, errorLogs]
  · rcases h : N.security_getenforce s with ⟨code, s1⟩
    by_cases h1 : code = -1
    · subst h1
      simp [isSELinuxEnforced, h, thrown, errorLogs]
    · simp [isSELinuxEnforced, h, h1, thrown, errorLogs]

/-- Witness for C4 on a stub whose probes fail with -1. -/
theorem status_probes_witness :
    (isSELinuxEnabled true (constNative (-1) none) ()).value = false
    ∧ errorLogs (isSELinuxEnabled true (constNative (-1) none) ()).events
        = [("Error retrieving SELinux enabled status (%s)", [LogArg.str "Permission denied"])]
    ∧ (isSELinuxEnforced true (constNative (-1) none) ()).value = false
    ∧ errorLogs (isSELinuxEnforced true (constNative (-1) none) ()).events
        = [("Error retrieving SELinux enforce mode (%s)", [LogArg.str "Permission denied"])] :=
  ⟨((status_probes (constNative (-1) none) ()).1.2.1 rfl).1,
   ((status_probes (constNative (-1) none) ()).1.2.1 rfl).2,
   ((status_probes (constNative (-1) none) ()).2.2.1 rfl).1,
   ((status_probes (constNative (-1) none) ()).2.2.1 rfl).2⟩

/-! ## Creation context (C5) -/

/-- C7: in the build with SELinux, when the host leaves an exception pending after
`jniGetFDFromFileDescriptor` on a non-null descriptor object, `getPeerCon` calls no
libselinux primitive (neither `getpeercon` nor `freecon`), returns null, throws nothing
itself and returns with exactly the host's exception pending; the stub state is untouched. -/
theorem getPeerCon_resolution_failure {σ : Type} (N : Native σ) (J : Host)
    (fdObject : FileDescriptor) (s : σ) (fault : Fault)
    (h : (J.jniGetFDFromFileDescriptor fdObject).2 = some fault) :
    (getPeerCon true N J (some fdObject) s).value = none
    ∧ nativeCalls (getPeerCon true N J (some fdObject) s).events = []
    ∧ thrown (getPeerCon true N J (some fdObject) s).events = []
    ∧ (getPeerCon true N J (some fdObject) s).pending = some fault
    ∧ (getPeerCon true N J (some fdObject) s).state = s := by
  rcases hj : J.jniGetFDFromFileDescriptor fdObject with ⟨fd, e⟩
  rw [hj] at h
  simp only at h
  subst h
  simp [getPeerCon, hj, bail_freecon, nativeCalls, thrown]

/-- Witness for C7 on a host that cannot resolve descriptors. -/
theorem getPeerCon_resolution_failure_witness :
    (unresolvingHost.jniGetFDFromFileDescriptor { ref := 7 }).2
        = some (Fault.hostFault "java/lang/NoSuchFieldError")
    ∧ (getPeerCon true (constNative 0 (some { addr := 16, label := "u:r:app:s0" }))
          unresolvingHost (some { ref := 7 }) ()).value = none
    ∧ nativeCalls (getPeerCon true (constNative 0 (some { addr := 16, label := "u:r:app:s0" }))
          unresolvingHost (some { ref := 7 }) ()).events = []
    ∧ (getPeerCon true (constNative 0 (some { addr := 16, label := "u:r:app:s0" }))
          unresolvingHost (some { ref := 7 }) ()).pending
        = some (Fault.hostFault "java/lang/NoSuchFieldError") :=
  ⟨rfl,
   (getPeerCon_resolution_failure (constNative 0 (some { addr := 16, label := "u:r:app:s0" }))
      unresolvingHost { ref := 7 } () _ rfl).1,
   (getPeerCon_resolution_failure (constNative 0 (some { addr := 16, label := "u:r:app:s0" }))
      unresolvingHost { ref := 7 } () _ rfl).2.1,
   (getPeerCon_resolution_failure (constNative 0 (some { addr := 16, label := "u:r:app:s0" }))
      unresolvingHost { ref := 7 } () _ rfl).2.2.2.1⟩

/-! ## Ownership of labels (C2) -/

/-- The blocks counted as handed over are the blocks the query left in its out-parameter:
in the build with SELinux `getCon` records exactly the out-parameter of `getcon`, and
likewise for the three other queries once their argument checks have passed. -/
theorem allocated_is_query_output {σ : Type} (N : Native σ) (J : Host) (pid : Int)
    (path : String) (fdObject : FileDescriptor) (s : σ) :
    allocated (getCon true N J s).events = (N.getcon s).1.2.toList
    ∧ allocated (getPidCon true N J pid s).events = (N.getpidcon pid s).1.2.toList
    ∧ allocated (getFileCon true N J (some path) s).events = (N.getfilecon path s).1.2.toList
    ∧ ((J.jniGetFDFromFileDescriptor fdObject).2 = none →
        allocated (getPeerCon true N J (some fdObject) s).events
          = (N.getpeercon (J.jniGetFDFromFileDescriptor fdObject).1 s).1.2.toList) := by
  refine ⟨?_, ?_, ?_, ?_⟩
  · rcases h : N.getcon s with ⟨⟨ret, context⟩, s1⟩
    by_cases h1 : ret = -1 <;> cases context <;>
      simp [getCon, h, h1, stored, bail_freecon, allocated]
  · rcases h : N.getpidcon pid s with ⟨⟨ret, context⟩, s1⟩
    by_cases h1 : ret = -1 <;> cases context <;>
      simp [getPidCon, h, h1, stored, bail_freecon, allocated]
  · rcases h : N.getfilecon path s with ⟨⟨ret, context⟩, s1⟩
    by_cases h1 : ret = -1 <;> cases context <;>
      simp [getFileCon, h, h1, stored, bail_freecon, allocated]
  · rcases hj : J.jniGetFDFromFileDescriptor fdObject with ⟨fd, e⟩
    intro he
    simp only at he
    subst he
    rcases h : N.getpeercon fd s with ⟨⟨ret, context⟩, s1⟩
    by_cases h1 : ret = -1 <;> cases context <;>
      simp [getPeerCon, hj, h, h1, stored, bail_freecon, allocated]

/-! ## Results of the label queries (C3) -/

/-- C3, counterexample: `getcon` succeeds with the label `u:r:app:s0`, the host cannot build
the managed string, and `getCon` returns null instead of the label, with the host's
exception pending. -/
theorem getCon_unconverted_label_counterexample :
    (constNative 0 (some { addr := 16, label := "u:r:app:s0" })).getcon ()
        = ((0, some { addr := 16, label := "u:r:app:s0" }), ())
    ∧ (getCon true (constNative 0 (some { addr := 16, label := "u:r:app:s0" }))
          exhaustedHost ()).value = none
    ∧ (getCon true (constNative 0 (some { addr := 16, label := "u:r:app:s0" }))
          exhaustedHost ()).value ≠ some "u:r:app:s0"
    ∧ (getCon true (constNative 0 (some { addr := 16, label := "u:r:app:s0" }))
          exhaustedHost ()).pending = some (Fault.hostFault "java/lang/OutOfMemoryError") := by
  simp [getCon, constNative, exhaustedHost, NewStringUTF, bail_freecon]

/-- C3, amended: in the build with SELinux, for `getCon`, `getPidCon` with every pid,
`getFileCon` with every non-null path and `getPeerCon` with every non-null descriptor the
host resolves: when the query does not return -1 and stores a label, the method returns
exactly that label with nothing pending if the host builds the string, and null with the
host's exception pending if it does not; when the query returns -1 the method returns
null, throws nothing, leaves nothing pending and writes one error-level log record. -/
theorem label_query_results {σ : Type} (N : Native σ) (J : Host) (pid : Int) (path : String)
    (fdObject : FileDescriptor) (s : σ) :
    QueryContract N J (N.getcon s) (getCon true N J s)
      "getCon: Error retrieving own context: (%s)" []
    ∧ QueryContract N J (N.getpidcon pid s) (getPidCon true N J pid s)
      "getPidCon: Error retrieving context of pid '%d' (%s)" [LogArg.num pid]
    ∧ QueryContract N J (N.getfilecon path s) (getFileCon true N J (some path) s)
      "getFileCon: Error retrieving context of file '%s' (%s)" [LogArg.str path]
    ∧ ((J.jniGetFDFromFileDescriptor fdObject).2 = none →
        QueryContract N J (N.getpeercon (J.jniGetFDFromFileDescriptor fdObject).1 s)
          (getPeerCon true N J (some fdObject) s)
          "getPeerCon: Error retrieving context of peer connection (%s)" []) := by
  refine ⟨?_, ?_, ?_, ?_⟩
  · rcases h : N.getcon s with ⟨⟨ret, context⟩, s1⟩
    refine ⟨?_, ?_, ?_⟩
    · intro c hc hret hconv
      simp only at hc hret
      subst hc
      simp [getCon, h, hret, NewStringUTF, hconv, stored, bail_freecon, thrown]
    · intro c f hc hret hconv
      simp only at hc hret
      subst hc
      simp [getCon, h, hret, NewStringUTF, hconv, stored, bail_freecon, thrown]
    · intro hret
      simp only at hret
      subst hret
      cases context <;> simp [getCon, h, stored, bail_freecon, thrown, errorLogs]
  · rcases h : N.getpidcon pid s with ⟨⟨ret, context⟩, s1⟩
    refine ⟨?_, ?_, ?_⟩
    · intro c hc hret hconv
      simp only at hc hret
      subst hc
      simp [getPidCon, h, hret, NewStringUTF, hconv, stored, bail_freecon, thrown]
    · intro c f hc hret hconv
      simp only at hc hret
      subst hc
      simp [getPidCon, h, hret, NewStringUTF, hconv, stored, bail_freecon, thrown]
    · intro hret
      simp only at hret
      subst hret
      cases context <;> simp [getPidCon, h, stored, bail_freecon, thrown, errorLogs]
  · rcases h : N.getfilecon path s with ⟨⟨ret, context⟩, s1⟩
    refine ⟨?_, ?_, ?_⟩
    · intro c hc hret hconv
      simp only at hc hret
      subst hc
      simp [getFileCon, h, hret, NewStringUTF, hconv, stored, bail_freecon, thrown]
    · intro c f hc hret hconv
      simp only at hc hret
      subst hc
      simp [getFileCon, h, hret, NewStringUTF, hconv, stored, bail_freecon, thrown]
    · intro hret
      simp only at hret
      subst hret
      cases context <;> simp [getFileCon, h, stored, bail_freecon, thrown, errorLogs]
  · rcases hj : J.jniGetFDFromFileDescriptor fdObject with ⟨fd, e⟩
    intro he
    simp only at he
    subst he
    rcases h : N.getpeercon fd s with ⟨⟨ret, context⟩, s1⟩
    refine ⟨?_, ?_, ?_⟩
    · intro c hc hret hconv
      simp only at hc hret
      subst hc
      simp [getPeerCon, hj, h, hret, NewStringUTF, hconv, stored, bail_freecon, thrown]
    · intro c f hc hret hconv
      simp only at hc hret
      subst hc
      simp [getPeerCon, hj, h, hret, NewStringUTF, hconv, stored, bail_freecon, thrown]
    · intro hret
      simp only at hret
      subst hret
      cases context <;> simp [getPeerCon, hj, h, stored, bail_freecon, thrown, errorLogs]

/-- Witness for the amended C3: on a host that builds strings `getPeerCon` returns the label
its query stored; on a stub whose query returns -1 `getCon` returns null and logs. -/
theorem label_query_results_witness :
    (nominalHost.jniGetFDFromFileDescriptor { ref := 7 }).2 = none
    ∧ (getPeerCon true (constNative 0 (some { addr := 16, label := "u:r:app:s0" })) nominalHost
          (some { ref := 7 }) ()).value = some "u:r:app:s0"
    ∧ (getCon true (constNative (-1) none) nominalHost ()).value = none
    ∧ errorLogs (getCon true (constNative (-1) none) nominalHost ()).events
        = [("getCon: Error retrieving own context: (%s)", [LogArg.str "Permission denied"])] :=
  ⟨rfl,
   (((label_query_results (constNative 0 (some { addr := 16, label := "u:r:app:s0" }))
        nominalHost 0 "/" { ref := 7 } ()).2.2.2 rfl).1
      { addr := 16, label := "u:r:app:s0" } rfl (by decide) rfl).1,
   ((label_query_results (constNative (-1) none) nominalHost 0 "/" { ref := 7 } ()).1.2.2 rfl).1,
   ((label_query_results (constNative (-1) none) nominalHost 0 "/" { ref := 7 } ()).1.2.2
      rfl).2.2.2⟩

/-! ## Access check (C6) -/

/-- C6: in the build with SELinux, for all non-null subject, target, class and permission,
`checkSELinuxAccess` makes one libselinux call, `selinux_check_access` with the four values
unchanged and in that order, and returns true exactly when that call returned 0; in
particular, when `getCon()` returned a label, `checkSELinuxAccess(result, result,
"process", "transition")` run next returns true on a stub that always grants and false on
a stub that always denies. -/
theorem checkSELinuxAccess_contract {σ : Type} (N : Native σ) (J : Host)
    (scon tcon tclass perm : String) (s : σ) :
    (∃ r : Result Bool σ,
        checkSELinuxAccess true N (some scon) (some tcon) (some tclass) (some perm) s = some r
        ∧ nativeCalls r.events = [NativeCall.selinux_check_access scon tcon tclass perm]
        ∧ (r.value = true ↔ (N.selinux_check_access scon tcon tclass perm s).1 = 0)
        ∧ r.pending = none
        ∧ r.state = (N.selinux_check_access scon tcon tclass perm s).2)
    ∧ ((getCon true N J s).value ≠ none →
        ((∀ a b c d st, (N.selinux_check_access a b c d st).1 = 0) →
          (checkSELinuxAccess true N (getCon true N J s).value (getCon true N J s).value
              (some "process") (some "transition") (getCon true N J s).state).map
            (fun r => r.value) = some true)
        ∧ ((∀ a b c d st, (N.selinux_check_access a b c d st).1 ≠ 0) →
          (checkSELinuxAccess true N (getCon true N J s).value (getCon true N J s).value
              (some "process") (some "transition") (getCon true N J s).state).map
            (fun r => r.value) = some false)) := by
  constructor
  · rcases h : N.selinux_check_access scon tcon tclass perm s with ⟨ret, s1⟩
    simp [checkSELinuxAccess, h, nativeCalls]
  · intro hne
    rcases hv : (getCon true N J s).value with _ | label
    · exact absurd hv hne
    · constructor
      · intro hgrant
        have hg := hgrant label label "process" "transition" (getCon true N J s).state
        rcases h : N.selinux_check_access label label "process" "transition"
          (getCon true N J s).state with ⟨ret, s1⟩
        rw [h] at hg
        simp only at hg
        simp [checkSELinuxAccess, h, hg]
      · intro hdeny
        have hd := hdeny label label "process" "transition" (getCon true N J s).state
        rcases h : N.selinux_check_access label label "process" "transition"
          (getCon true N J s).state with ⟨ret, s1⟩
        rw [h] at hd
        simp only at hd
        simp [checkSELinuxAccess, h, hd]

/-- Witness for C6: the own context checked against itself on a stub that always grants
and on a stub that always denies. -/
theorem checkSELinuxAccess_contract_witness :
    (getCon true (accessStub 0) nominalHost ()).value ≠ none
    ∧ (checkSELinuxAccess true (accessStub 0) (getCon true (accessStub 0) nominalHost ()).value
          (getCon true (accessStub 0) nominalHost ()).value (some "process")
          (some "transition") (getCon true (accessStub 0) nominalHost ()).state).map
        (fun r => r.value) = some true
    ∧ (checkSELinuxAccess true (accessStub (-1))
          (getCon true (accessStub (-1)) nominalHost ()).value
          (getCon true (accessStub (-1)) nominalHost ()).value (some "process")
          (some "transition") (getCon true (accessStub (-1)) nominalHost ()).state).map
        (fun r => r.value) = some false :=
  ⟨by simp [getCon, accessStub, nominalHost, NewStringUTF],
   ((checkSELinuxAccess_contract (accessStub 0) nominalHost "a" "b" "c" "d" ()).2
      (by simp [getCon, accessStub, nominalHost, NewStringUTF])).1
      (fun _ _ _ _ _ => rfl),
   ((checkSELinuxAccess_contract (accessStub (-1)) nominalHost "a" "b" "c" "d" ()).2
      (by simp [getCon, accessStub, nominalHost, NewStringUTF])).2
      (fun _ _ _ _ _ => by simp [accessStub])⟩

/-! ## Round trip of a file label (C8) -/

/-- C8, counterexample: on the stub label store `setFileCon("/data/f", "label:A")` returns
true, and the `getFileCon("/data/f")` that follows, on a host that cannot build the managed
string, returns null instead of `label:A`. -/
theorem file_label_round_trip_counterexample :
    (setFileCon true labelStore (some "/data/f") (some "label:A") (fun _ => none)).value = true
    ∧ (getFileCon true labelStore exhaustedHost (some "/data/f")
          (setFileCon true labelStore (some "/data/f") (some "label:A")
            (fun _ => none)).state).value = none
    ∧ (getFileCon true labelStore exhaustedHost (some "/data/f")
          (setFileCon true labelStore (some "/data/f") (some "label:A")
            (fun _ => none)).state).value ≠ some "label:A" := by
  have hlen : ∀ n : Nat, ¬ ((n : Int) + 1 = -1) := fun n => by omega
  simp [setFileCon, getFileCon, labelStore, exhaustedHost, NewStringUTF, bail_freecon, hlen]

/-- C8, amended: in the build with SELinux, on a stub in which a `setfilecon(p, l)` that
returns 0 is followed by a `getfilecon(p)` that succeeds with the label `l`, and on a host
that builds the managed string for `l`: for non-null `p` and `l`, `setFileCon(p, l)` calls
`setfilecon` once with path and label unchanged and unswapped, and if it returns true the
`getFileCon(p)` that follows returns exactly `l`. -/
theorem file_label_round_trip {σ : Type} (N : Native σ) (J : Host) (p l : String) (s : σ)
    (hstore : (N.setfilecon p l s).1 = 0 →
      ∃ c : Con, (N.getfilecon p (N.setfilecon p l s).2).1.2 = some c
        ∧ (N.getfilecon p (N.setfilecon p l s).2).1.1 ≠ -1 ∧ c.label = l)
    (hconv : J.NewStringUTF_fault l = none)
    (hset : (setFileCon true N (some p) (some l) s).value = true) :
    nativeCalls (setFileCon true N (some p) (some l) s).events = [NativeCall.setfilecon p l]
    ∧ (getFileCon true N J (some p) (setFileCon true N (some p) (some l) s).state).value
        = some l := by
  rcases h : N.setfilecon p l s with ⟨ret, s1⟩
  rw [h] at hstore
  simp only [setFileCon, h] at hset ⊢
  have hret : ret = 0 := by
    by_contra hne
    simp [hne] at hset
  subst hret
  obtain ⟨c, hc, hr, hl⟩ := hstore rfl
  rcases hg : N.getfilecon p s1 with ⟨⟨r2, context⟩, s2⟩
  rw [hg] at hc hr
  simp only at hc hr
  subst hc
  subst hl
  constructor
  · simp [nativeCalls]
  · simp [getFileCon, hg, hr, NewStringUTF, hconv]

/-- Witness for the amended C8: the label `label:A` on the stub label store. -/
theorem file_label_round_trip_witness :
    (setFileCon true labelStore (some "/data/f") (some "label:A") (fun _ => none)).value = true
    ∧ (getFileCon true labelStore nominalHost (some "/data/f")
          (setFileCon true labelStore (some "/data/f") (some "label:A")
            (fun _ => none)).state).value = some "label:A" :=
  ⟨by simp [setFileCon, labelStore],
   (file_label_round_trip labelStore nominalHost "/data/f" "label:A" (fun _ => none)
      (fun _ => ⟨{ addr := 4096, label := "label:A" }, by simp [labelStore],
        by simp [labelStore]; omega, rfl⟩)
      rfl (by simp [setFileCon, labelStore])).2⟩

/-! ## UTF buffers (C10) -/

/-- C10: in the build with SELinux and for non-null strings, `setFSCreateCon`,
`setFileCon` and `getFileCon` release exactly the buffers they acquired, whatever the
primitive returns, whereas `checkSELinuxAccess` acquires the buffers of its four arguments
and releases none of them. -/
theorem utf_buffers_released {σ : Type} (N : Native σ) (J : Host)
    (context path con scon tcon tclass perm : String) (s : σ) :
    (acquired (setFSCreateCon true N (some context) s).events = [context]
      ∧ released (setFSCreateCon true N (some context) s).events = [context])
    ∧ (acquired (setFileCon true N (some path) (some con) s).events = [path, con]
      ∧ released (setFileCon true N (some path) (some con) s).events = [path, con])
    ∧ (acquired (getFileCon true N J (some path) s).events = [path]
      ∧ released (getFileCon true N J (some path) s).events = [path])
    ∧ (checkSELinuxAccess true N (some scon) (some tcon) (some tclass) (some perm) s).map
        (fun r => (acquired r.events, released r.events))
        = some ([scon, tcon, tclass, perm], []) := by
  refine ⟨?_, ?_, ?_, ?_⟩
  · rcases h : N.setfscreatecon (some context) s with ⟨ret, s1⟩
    by_cases h1 : ret = -1 <;> simp [setFSCreateCon, h, h1, acquired, released]
  · rcases h : N.setfilecon path con s with ⟨ret, s1⟩
    by_cases h1 : ret = -1 <;> simp [setFileCon, h, h1, acquired, released]
  · rcases h : N.getfilecon path s with ⟨⟨ret, context⟩, s1⟩
    by_cases h1 : ret = -1 <;> cases context <;>
      simp [getFileCon, h, h1, stored, bail_freecon, acquired, released]
  · rcases h : N.selinux_check_access scon tcon tclass perm s with ⟨ret, s1⟩
    simp [checkSELinuxAccess, h, acquired, released]

/-- C10, the failing call: `checkSELinuxAccess("u:r:system_app:s0", "u:r:system_app:s0",
"process", "transition")` in the build with SELinux returns with four UTF buffers acquired
and none released, while `getFileCon("/data/f")` on the same kind of stub releases the one
buffer it acquired. -/
theorem checkSELinuxAccess_keeps_utf_buffers :
    (checkSELinuxAccess true (accessStub 0) (some "u:r:system_app:s0")
        (some "u:r:system_app:s0") (some "process") (some "transition") ()).map
      (fun r => (acquired r.events, released r.events))
      = some (["u:r:system_app:s0", "u:r:system_app:s0", "process", "transition"], [])
    ∧ acquired (getFileCon true (accessStub 0) nominalHost (some "/data/f") ()).events
        = ["/data/f"]
    ∧ released (getFileCon true (accessStub 0) nominalHost (some "/data/f") ()).events
        = ["/data/f"] := by
  simp [checkSELinuxAccess, getFileCon, accessStub, stored, bail_freecon, acquired, released]

end android
